import Mathlib

/-!
Verification of the motor admission-control, queueing and shutdown subsystem of
the go-mqtt-backend repository.

The repository contains two versions of the handler file `mqtt.go`:

* `src/handlers/mqtt.go` — durations in minutes, audit logging to the database,
  and a queue processor that actually drives the actuator
  (publish "on", sleep, publish "off").  Embedded below as namespace `V1`.
* `src/unnamed/part_005` — durations in seconds, admin shutdown integration
  (503 rejection, drop at dequeue), no audit write, and the actuator commands
  commented out in the processor.  Embedded below as namespace `V2`.

Go machine arithmetic: `time.Duration` is int64 nanoseconds; all conversions
(`time.Duration(d) * time.Second`, additions) wrap at 2^63, which is modelled
explicitly by `toInt64`.  Instants (`time.Time`) are modelled as integers, with
`time.Now().After(t)` as strict `>`.
-/

/-- Two's-complement wrap of an integer to a signed 64-bit value, the semantics
of Go's int64 arithmetic. -/
def toInt64 (x : Int) : Int := (x + 2 ^ 63) % 2 ^ 64 - 2 ^ 63

/-- Go `time.Second` in nanoseconds. -/
def nsPerSecond : Int := 1000000000

/-- Go `time.Minute` in nanoseconds. -/
def nsPerMinute : Int := 60000000000

/-- The global `motorQuota = 1 * time.Hour` (in nanoseconds): the daily cap. -/
def motorQuota : Int := 3600000000000

/-- `24 * time.Hour` in nanoseconds, the quota window length. -/
def hours24 : Int := 86400000000000

/-- The `MotorRequest` struct of both versions of `mqtt.go`. -/
structure MotorRequest where
  UserID : Nat
  RequestAt : Int
  Duration : Int
  deriving Repr, DecidableEq

/-- The quota globals guarded by `motorQuotaMutex`: `totalMotorTime`
(nanoseconds used in the current window) and `quotaResetTime`. -/
structure QuotaState where
  totalMotorTime : Int
  quotaResetTime : Int
  deriving Repr, DecidableEq

/-- The lazy window reset performed at the top of every quota critical section
in both files: `if time.Now().After(quotaResetTime) { totalMotorTime = 0;
quotaResetTime = time.Now().Add(24 * time.Hour) }`. -/
def quotaWindowStep (qs : QuotaState) (now : Int) : QuotaState :=
  if now > qs.quotaResetTime then
    { totalMotorTime := 0, quotaResetTime := now + hours24 }
  else qs

/-- Gin `ShouldBindJSON` on a struct whose only field is
`Duration int` tagged `binding:"required"`: binding fails when the field is
absent or holds the zero value 0 (the validator treats a zero int as missing);
any other integer, negative ones included, passes. -/
def bindRequiredInt : Option Int → Option Int
  | none => none
  | some d => if d = 0 then none else some d

/-- An observable action of the queue processor: an MQTT publish or a
`time.Sleep`.  Trace entries are tagged with the request whose loop iteration
emitted them. -/
inductive PrimAction where
  | publish (topic payload : String)
  | sleep (d : Int)
  deriving Repr, DecidableEq

/-- An execution trace of the processor. -/
abbrev MotorTrace := List (MotorRequest × PrimAction)

namespace V2

/-- The shutdown globals of `src/unnamed/part_005` guarded by
`shutdownMutex`: `isShutdown`, `shutdownReason`, `shutdownBy`, `shutdownAt`. -/
structure ShutdownState where
  isShutdown : Bool
  shutdownReason : String
  shutdownBy : String
  shutdownAt : Int
  deriving Repr, DecidableEq

/-- The zero values the shutdown globals start with (and that `AdminRestart`
writes back). -/
def initialShutdownState : ShutdownState :=
  { isShutdown := false, shutdownReason := "", shutdownBy := "", shutdownAt := 0 }

/-- The HTTP outcome of `EnqueueMotorRequest` in `src/unnamed/part_005`.
`blockedOnQueueSend` marks the case where `motorQueue <- req` on a full
100-slot buffered channel blocks: no HTTP response is produced until the
consumer frees a slot. -/
inductive Response where
  | shutdown503 (reason initiator : String) (at_ : Int)
  | badRequest400
  | tooMany429
  | queued200
  | blockedOnQueueSend
  deriving Repr, DecidableEq

/-- `EnqueueMotorRequest` of `src/unnamed/part_005` (lines 145-197):
shutdown check first (503 with metadata), then JSON binding (400), then the
quota critical section (lazy reset, reject with 429 when
`totalMotorTime + time.Duration(d)*time.Second > motorQuota`, no accumulation
on accept), then the channel send of `MotorRequest{UserID: 0, RequestAt: now,
Duration: d seconds}`. -/
def EnqueueMotorRequest (ss : ShutdownState) (qs : QuotaState) (now : Int)
    (input : Option Int) (queue : List MotorRequest) :
    Response × QuotaState × List MotorRequest :=
  if ss.isShutdown then
    (Response.shutdown503 ss.shutdownReason ss.shutdownBy ss.shutdownAt, qs, queue)
  else
    match bindRequiredInt input with
    | none => (Response.badRequest400, qs, queue)
    | some d =>
      let qs1 := quotaWindowStep qs now
      let dns := toInt64 (d * nsPerSecond)
      if toInt64 (qs1.totalMotorTime + dns) > motorQuota then
        (Response.tooMany429, qs1, queue)
      else if queue.length < 100 then
        (Response.queued200, qs1, queue ++ [⟨0, now, dns⟩])
      else
        (Response.blockedOnQueueSend, qs1, queue)

/-- One iteration of `processMotorQueue` in `src/unnamed/part_005`
(lines 94-134) on a dequeued request: drop under shutdown (quota untouched),
else lazy reset, drop when `totalMotorTime + req.Duration > motorQuota`, else
accumulate.  The actuator commands are commented out in this version, so no
iteration emits any publish action. -/
def processMotorQueueStep (ss : ShutdownState) (qs : QuotaState) (now : Int)
    (req : MotorRequest) : QuotaState × MotorTrace :=
  if ss.isShutdown then (qs, [])
  else
    let qs1 := quotaWindowStep qs now
    if toInt64 (qs1.totalMotorTime + req.Duration) > motorQuota then (qs1, [])
    else ({ qs1 with totalMotorTime := toInt64 (qs1.totalMotorTime + req.Duration) }, [])

/-- The shutdown-state transition of `AdminForceShutdown`
(`src/unnamed/part_005` lines 243-250): unconditionally overwrite all four
globals. -/
def AdminForceShutdown (_prior : ShutdownState) (reason email : String)
    (now : Int) : ShutdownState :=
  { isShutdown := true, shutdownReason := reason, shutdownBy := email, shutdownAt := now }

/-- The shutdown-state transition of `AdminRestart`
(`src/unnamed/part_005` lines 274-290): unconditionally clear all four
globals to their zero values. -/
def AdminRestart (_prior : ShutdownState) : ShutdownState :=
  initialShutdownState

end V2

namespace V1

/-- The HTTP outcome of `EnqueueMotorRequest` in `src/handlers/mqtt.go`.
`blockedOnQueueSend` marks the blocking channel send on a full queue. -/
inductive Response where
  | badRequest400
  | tooMany429
  | unauthorized401
  | auditFail500
  | queued200
  | blockedOnQueueSend
  deriving Repr, DecidableEq

/-- An observable handler event of `src/handlers/mqtt.go`: the successful
`database.DB.Create` of a `DeviceActivation{UserID, RequestAt, Duration}`
audit row, or the channel send of a `MotorRequest`. -/
inductive Event where
  | auditWrite (uid : Nat) (at_ : Int) (dur : Int)
  | enqueued (req : MotorRequest)
  deriving Repr, DecidableEq

/-- `EnqueueMotorRequest` of `src/handlers/mqtt.go` (lines 76-118): JSON
binding of `Duration int` in minutes (400 on failure), quota critical section
(lazy reset, 429 when `totalMotorTime + time.Duration(d)*time.Minute >
motorQuota`, no accumulation on accept), `c.Get("userID")` (401 when absent),
`database.DB.Create` of the audit row (500 on failure, nothing enqueued), and
finally the channel send of `MotorRequest{UserID: 0, RequestAt: now,
Duration: d minutes}`.  The database outcome is the injected `auditOk`; the
returned event list records the successful audit write and the enqueue, in
order. -/
def EnqueueMotorRequest (qs : QuotaState) (now : Int) (input : Option Int)
    (userID : Option Nat) (auditOk : Bool) (queue : List MotorRequest) :
    Response × QuotaState × List MotorRequest × List Event :=
  match bindRequiredInt input with
  | none => (Response.badRequest400, qs, queue, [])
  | some d =>
    let qs1 := quotaWindowStep qs now
    let dns := toInt64 (d * nsPerMinute)
    if toInt64 (qs1.totalMotorTime + dns) > motorQuota then
      (Response.tooMany429, qs1, queue, [])
    else
      match userID with
      | none => (Response.unauthorized401, qs1, queue, [])
      | some uid =>
        if auditOk then
          if queue.length < 100 then
            (Response.queued200, qs1, queue ++ [⟨0, now, dns⟩],
              [Event.auditWrite uid now dns, Event.enqueued ⟨0, now, dns⟩])
          else
            (Response.blockedOnQueueSend, qs1, queue, [Event.auditWrite uid now dns])
        else
          (Response.auditFail500, qs1, queue, [])

/-- The actions one iteration of `processMotorQueue` in
`src/handlers/mqtt.go` performs for its request (lines 68-72):
`mqtt.Publish("motor/control", "on")`, `time.Sleep(req.Duration)`,
`mqtt.Publish("motor/control", "off")`. -/
def requestBlock (r : MotorRequest) : MotorTrace :=
  [(r, PrimAction.publish "motor/control" "on"),
   (r, PrimAction.sleep r.Duration),
   (r, PrimAction.publish "motor/control" "off")]

/-- One iteration of `processMotorQueue` in `src/handlers/mqtt.go`
(lines 58-73): lazy reset, unconditional `totalMotorTime += req.Duration`
(this version has no quota rejection at dequeue), then the actuator block. -/
def processOne (qs : QuotaState) (now : Int) (req : MotorRequest) :
    QuotaState × MotorTrace :=
  let qs1 := quotaWindowStep qs now
  ({ qs1 with totalMotorTime := toInt64 (qs1.totalMotorTime + req.Duration) },
    requestBlock req)

/-- The `for req := range motorQueue` loop of `src/handlers/mqtt.go` run over
a list of queued requests in FIFO order, threading the quota state and
concatenating the per-iteration action traces. -/
def processMotorQueue (qs : QuotaState) (now : Int) :
    List MotorRequest → QuotaState × MotorTrace
  | [] => (qs, [])
  | r :: rs =>
    let p := processOne qs now r
    let q := processMotorQueue p.1 now rs
    (q.1, p.2 ++ q.2)

end V1

/-- A wrapped value already in signed 64-bit range is unchanged. -/
theorem toInt64_eq_of_range (x : Int) (h1 : -(2 ^ 63) ≤ x) (h2 : x < 2 ^ 63) :
    toInt64 x = x := by
  unfold toInt64
  rw [Int.emod_eq_of_lt (by omega) (by omega)]
  omega

/-- Applying the lazy window reset twice at the same instant is the same as
applying it once. -/
theorem quotaWindowStep_idem (qs : QuotaState) (now : Int) :
    quotaWindowStep (quotaWindowStep qs now) now = quotaWindowStep qs now := by
  unfold quotaWindowStep
  split
  · simp only [hours24]
    rw [if_neg (by omega)]
  · rfl

/-- The trace of the V1 processor loop is the concatenation of the
per-request actuator blocks, independently of the quota state threaded
through. -/
theorem processMotorQueue_trace (qs : QuotaState) (now : Int)
    (reqs : List MotorRequest) :
    (V1.processMotorQueue qs now reqs).2 = reqs.flatMap V1.requestBlock := by
  induction reqs generalizing qs with
  | nil => rfl
  | cons r rs ih => simp [V1.processMotorQueue, V1.processOne, ih]

/-- Claim C1: while the shutdown flag is set, `EnqueueMotorRequest` rejects
with 503 carrying the shutdown reason, initiator and timestamp, leaving the
quota state and the queue untouched, and `processMotorQueue` drops every
dequeued request without publishing any actuator command and without touching
the quota state, whatever the request (including requests queued before the
shutdown). -/
theorem c1_shutdown_blocks_admission_and_processing
    (ss : V2.ShutdownState) (qs : QuotaState) (now : Int) (input : Option Int)
    (queue : List MotorRequest) (req : MotorRequest)
    (h : ss.isShutdown = true) :
    V2.EnqueueMotorRequest ss qs now input queue
      = (V2.Response.shutdown503 ss.shutdownReason ss.shutdownBy ss.shutdownAt, qs, queue)
    ∧ V2.processMotorQueueStep ss qs now req = (qs, []) := by
  constructor <;> simp [V2.EnqueueMotorRequest, V2.processMotorQueueStep, h]

/-- Claim C1, witness: a concrete shutdown state rejects a concrete admission
with its metadata and drops a concrete queued request without any action. -/
theorem c1_shutdown_blocks_admission_and_processing_witness :
    V2.EnqueueMotorRequest ⟨true, "maintenance", "opA", 5⟩ ⟨0, 100⟩ 0 (some 10) []
      = (V2.Response.shutdown503 "maintenance" "opA" 5, ⟨0, 100⟩, [])
    ∧ V2.processMotorQueueStep ⟨true, "maintenance", "opA", 5⟩ ⟨0, 100⟩ 0 ⟨0, 0, 1000000000⟩
      = (⟨0, 100⟩, []) :=
  c1_shutdown_blocks_admission_and_processing ⟨true, "maintenance", "opA", 5⟩
    ⟨0, 100⟩ 0 (some 10) [] ⟨0, 0, 1000000000⟩ rfl

/-- The quota limit is far below the int64 boundary. -/
theorem motorQuota_lt_two_pow_63 : motorQuota < 2 ^ 63 := by norm_num [motorQuota]

/-- Claim C2, counterexample: with a fresh quota state (nothing accumulated,
window not expired) a 10-second request is accepted, yet the accumulated
counter after admission is still 0, not 0 + 10 seconds: `EnqueueMotorRequest`
never adds the duration at admission time. -/
theorem c2_counterexample_no_charge_at_admission :
    V2.EnqueueMotorRequest ⟨false, "", "", 0⟩ ⟨0, 100⟩ 0 (some 10) []
      = (V2.Response.queued200, ⟨0, 100⟩, [⟨0, 0, 10000000000⟩])
    ∧ (V2.EnqueueMotorRequest ⟨false, "", "", 0⟩ ⟨0, 100⟩ 0 (some 10) []).2.1.totalMotorTime
      ≠ 0 + 10 * nsPerSecond := by
  constructor
  · rfl
  · decide

/-- Claim C2, amended: a request with positive duration d that fits the
remaining budget (after the lazy window reset) is accepted exactly once — one
`MotorRequest` of d seconds is appended to the queue and the caller gets the
queued response — but the accumulated counter is left at its post-reset value
at admission; it increases by d only when the background processor executes
the dequeued request. -/
theorem c2_admission_accepts_without_charging
    (ss : V2.ShutdownState) (qs : QuotaState) (now d : Int)
    (queue : List MotorRequest)
    (hs : ss.isShutdown = false) (hd : 0 < d)
    (h0 : 0 ≤ (quotaWindowStep qs now).totalMotorTime)
    (hq : (quotaWindowStep qs now).totalMotorTime + d * nsPerSecond ≤ motorQuota)
    (hcap : queue.length < 100) :
    V2.EnqueueMotorRequest ss qs now (some d) queue
      = (V2.Response.queued200, quotaWindowStep qs now,
          queue ++ [⟨0, now, d * nsPerSecond⟩])
    ∧ (V2.processMotorQueueStep ss (quotaWindowStep qs now) now
        ⟨0, now, d * nsPerSecond⟩).1.totalMotorTime
      = (quotaWindowStep qs now).totalMotorTime + d * nsPerSecond := by
  have hns : (0 : Int) < nsPerSecond := by norm_num [nsPerSecond]
  have hd0 : 0 < d * nsPerSecond := mul_pos hd hns
  have hquota : motorQuota < 2 ^ 63 := motorQuota_lt_two_pow_63
  have h1 : toInt64 (d * nsPerSecond) = d * nsPerSecond :=
    toInt64_eq_of_range _ (by linarith) (by linarith)
  have h2 : toInt64 ((quotaWindowStep qs now).totalMotorTime + d * nsPerSecond)
      = (quotaWindowStep qs now).totalMotorTime + d * nsPerSecond :=
    toInt64_eq_of_range _ (by linarith) (by linarith)
  have hnot : ¬ (motorQuota <
      (quotaWindowStep qs now).totalMotorTime + d * nsPerSecond) := not_lt.2 hq
  constructor
  · simp [V2.EnqueueMotorRequest, hs, bindRequiredInt, hd.ne', h1, h2, hnot, hcap]
  · simp [V2.processMotorQueueStep, hs, quotaWindowStep_idem, h2, hnot]

/-- Claim C2 (amended), witness: a fresh quota state accepts a 10-second
request, leaves the counter untouched at admission, and the processor later
adds the 10 seconds. -/
theorem c2_admission_accepts_without_charging_witness :
    V2.EnqueueMotorRequest ⟨false, "", "", 0⟩ ⟨0, 100⟩ 0 (some 10) []
      = (V2.Response.queued200, quotaWindowStep ⟨0, 100⟩ 0,
          [] ++ [⟨0, 0, 10 * nsPerSecond⟩])
    ∧ (V2.processMotorQueueStep ⟨false, "", "", 0⟩ (quotaWindowStep ⟨0, 100⟩ 0) 0
        ⟨0, 0, 10 * nsPerSecond⟩).1.totalMotorTime
      = (quotaWindowStep ⟨0, 100⟩ 0).totalMotorTime + 10 * nsPerSecond :=
  c2_admission_accepts_without_charging ⟨false, "", "", 0⟩ ⟨0, 100⟩ 0 10 []
    rfl (by decide) (by decide) (by decide) (by decide)

/-- Claim C3, counterexample: int64 wrap-around defeats the quota rejection in
two ways.  First, a request of 10^10 seconds (about 317 years) far exceeds the
remaining budget, yet is accepted: the Go conversion
`time.Duration(input.Duration) * time.Second` wraps around int64 to the
negative value -8446744073709551616 ns, so the quota comparison passes and the
request is enqueued with that wrapped duration.  Second, even when the
converted duration d·10^9 itself fits int64 (d = 9223372036 s, giving
9223372036000000000 ns < 2^63), with 3600000000000 ns (the full hour) already
accumulated the int64 addition `totalMotorTime + time.Duration(d)*time.Second`
wraps to -9223368437709551616, the comparison passes, and the request is
admitted with 200 — so the rejection also needs the sum not to overflow. -/
theorem c3_counterexample_overflow_admits_excessive_duration :
    0 + 10000000000 * nsPerSecond > motorQuota
    ∧ V2.EnqueueMotorRequest ⟨false, "", "", 0⟩ ⟨0, 100⟩ 0 (some 10000000000) []
      = (V2.Response.queued200, ⟨0, 100⟩, [⟨0, 0, -8446744073709551616⟩])
    ∧ 9223372036 * nsPerSecond < 2 ^ 63
    ∧ 3600000000000 + 9223372036 * nsPerSecond > motorQuota
    ∧ V2.EnqueueMotorRequest ⟨false, "", "", 0⟩ ⟨3600000000000, 100⟩ 0
        (some 9223372036) []
      = (V2.Response.queued200, ⟨3600000000000, 100⟩,
          [⟨0, 0, 9223372036000000000⟩]) := by
  refine ⟨by decide, by rfl, by decide, by decide, by rfl⟩

/-- Claim C3, amended: for a request with positive duration d submitted
against a non-negative post-lazy-reset accumulated usage, provided no int64
overflow occurs — the nanosecond value d·10^9 stays below 2^63 and so does the
sum of the post-lazy-reset accumulated usage and d·10^9 — if that accumulated
usage plus d·10^9 exceeds the quota limit, then `EnqueueMotorRequest` rejects
with 429 and both the accumulated counter (at its post-lazy-reset value) and
the queue are unchanged. -/
theorem c3_quota_exceeded_rejected
    (ss : V2.ShutdownState) (qs : QuotaState) (now d : Int)
    (queue : List MotorRequest)
    (hs : ss.isShutdown = false) (hd : 0 < d)
    (hdr : d * nsPerSecond < 2 ^ 63)
    (h0 : 0 ≤ (quotaWindowStep qs now).totalMotorTime)
    (hsum : (quotaWindowStep qs now).totalMotorTime + d * nsPerSecond < 2 ^ 63)
    (hover : motorQuota < (quotaWindowStep qs now).totalMotorTime + d * nsPerSecond) :
    V2.EnqueueMotorRequest ss qs now (some d) queue
      = (V2.Response.tooMany429, quotaWindowStep qs now, queue) := by
  have hns : (0 : Int) < nsPerSecond := by norm_num [nsPerSecond]
  have hd0 : 0 < d * nsPerSecond := mul_pos hd hns
  have h1 : toInt64 (d * nsPerSecond) = d * nsPerSecond :=
    toInt64_eq_of_range _ (by linarith) hdr
  have h2 : toInt64 ((quotaWindowStep qs now).totalMotorTime + d * nsPerSecond)
      = (quotaWindowStep qs now).totalMotorTime + d * nsPerSecond :=
    toInt64_eq_of_range _ (by linarith) hsum
  simp [V2.EnqueueMotorRequest, hs, bindRequiredInt, hd.ne', h1, h2, hover]

/-- Claim C3 (amended), witness: 40 minutes already used, a 30-minute request
(1800 seconds) overflows nothing and is rejected with 429, counter and queue
unchanged. -/
theorem c3_quota_exceeded_rejected_witness :
    V2.EnqueueMotorRequest ⟨false, "", "", 0⟩ ⟨2400000000000, 100⟩ 0 (some 1800) []
      = (V2.Response.tooMany429, quotaWindowStep ⟨2400000000000, 100⟩ 0, []) :=
  c3_quota_exceeded_rejected ⟨false, "", "", 0⟩ ⟨2400000000000, 100⟩ 0 1800 []
    rfl (by decide) (by decide) (by decide) (by decide) (by decide)

/-- Claim C4: at both quota critical sections (admission and processing), when
the current time is past the window-reset timestamp, the accumulator is zeroed
and the reset timestamp set to now + 24h before the accept/reject decision:
both functions behave exactly as on the already-reset state `⟨0, now + 24h⟩`.
Consequently a request that exceeded the old remaining budget may succeed: with
the full quota consumed and the window expired, a 5-second request is accepted,
while with the same consumption and an unexpired window it is rejected. -/
theorem c4_lazy_reset_before_decision
    (ss : V2.ShutdownState) (qs : QuotaState) (now d : Int)
    (queue : List MotorRequest) (req : MotorRequest)
    (hs : ss.isShutdown = false) (hd : ¬ d = 0) (h : now > qs.quotaResetTime) :
    quotaWindowStep qs now = ⟨0, now + hours24⟩
    ∧ V2.EnqueueMotorRequest ss qs now (some d) queue
      = V2.EnqueueMotorRequest ss ⟨0, now + hours24⟩ now (some d) queue
    ∧ V2.processMotorQueueStep ss qs now req
      = V2.processMotorQueueStep ss ⟨0, now + hours24⟩ now req
    ∧ (V2.EnqueueMotorRequest ⟨false, "", "", 0⟩ ⟨motorQuota, 10⟩ 11 (some 5) []).1
      = V2.Response.queued200
    ∧ (V2.EnqueueMotorRequest ⟨false, "", "", 0⟩ ⟨motorQuota, 20⟩ 11 (some 5) []).1
      = V2.Response.tooMany429 := by
  have hno : ¬ (now > now + hours24) := by unfold hours24; omega
  have hqw : quotaWindowStep qs now = ⟨0, now + hours24⟩ := by
    unfold quotaWindowStep
    rw [if_pos h]
  have hqw2 : quotaWindowStep ⟨0, now + hours24⟩ now = ⟨0, now + hours24⟩ := by
    unfold quotaWindowStep
    rw [if_neg hno]
  refine ⟨hqw, ?_, ?_, by decide, by decide⟩
  · simp [V2.EnqueueMotorRequest, hs, bindRequiredInt, hd, hqw, hqw2]
  · simp [V2.processMotorQueueStep, hs, hqw, hqw2]

/-- Claim C4, witness: with the full hour consumed and the window expired
(reset timestamp 10, now 11), the reset fires and a 5-second request that the
old budget could not cover is accepted. -/
theorem c4_lazy_reset_before_decision_witness :
    quotaWindowStep ⟨3600000000000, 10⟩ 11 = ⟨0, 11 + hours24⟩
    ∧ V2.EnqueueMotorRequest ⟨false, "", "", 0⟩ ⟨3600000000000, 10⟩ 11 (some 5) []
      = V2.EnqueueMotorRequest ⟨false, "", "", 0⟩ ⟨0, 11 + hours24⟩ 11 (some 5) []
    ∧ V2.processMotorQueueStep ⟨false, "", "", 0⟩ ⟨3600000000000, 10⟩ 11 ⟨0, 0, 5000000000⟩
      = V2.processMotorQueueStep ⟨false, "", "", 0⟩ ⟨0, 11 + hours24⟩ 11 ⟨0, 0, 5000000000⟩
    ∧ (V2.EnqueueMotorRequest ⟨false, "", "", 0⟩ ⟨motorQuota, 10⟩ 11 (some 5) []).1
      = V2.Response.queued200
    ∧ (V2.EnqueueMotorRequest ⟨false, "", "", 0⟩ ⟨motorQuota, 20⟩ 11 (some 5) []).1
      = V2.Response.tooMany429 :=
  c4_lazy_reset_before_decision ⟨false, "", "", 0⟩ ⟨3600000000000, 10⟩ 11 5 []
    ⟨0, 0, 5000000000⟩ rfl (by decide) (by decide)

/-- Claim C5: the V1 processor executes queued requests in exact FIFO order,
each producing publish "on", a hold of the requested duration, publish "off";
its whole trace is the concatenation of these per-request blocks, and for any
two queued requests A before B, A's "on" precedes B's "on" and A's "off" (and
its hold) lie strictly between the two — so at most one request drives the
actuator at a time. -/
theorem c5_fifo_on_hold_off_order (qs : QuotaState) (now : Int)
    (reqs : List MotorRequest) :
    (V1.processMotorQueue qs now reqs).2 = reqs.flatMap V1.requestBlock
    ∧ ∀ pre mid post : List MotorRequest, ∀ A B : MotorRequest,
        reqs = pre ++ A :: (mid ++ B :: post) →
        ∃ l1 l2 l3 : MotorTrace,
          (V1.processMotorQueue qs now reqs).2
            = l1 ++ (A, PrimAction.publish "motor/control" "on")
                :: (l2 ++ (B, PrimAction.publish "motor/control" "on") :: l3)
          ∧ (A, PrimAction.sleep A.Duration) ∈ l2
          ∧ (A, PrimAction.publish "motor/control" "off") ∈ l2 := by
  refine ⟨processMotorQueue_trace qs now reqs, ?_⟩
  intro pre mid post A B hsplit
  subst hsplit
  refine ⟨pre.flatMap V1.requestBlock,
    [(A, PrimAction.sleep A.Duration),
     (A, PrimAction.publish "motor/control" "off")] ++ mid.flatMap V1.requestBlock,
    (B, PrimAction.sleep B.Duration)
      :: (B, PrimAction.publish "motor/control" "off") :: post.flatMap V1.requestBlock,
    ?_, by simp, by simp⟩
  rw [processMotorQueue_trace]
  simp [V1.requestBlock]

/-- Claim C5, witness: for two concrete queued requests the trace is A's
on/hold/off block followed by B's, with A's hold and off strictly between the
two "on" commands. -/
theorem c5_fifo_on_hold_off_order_witness :
    (V1.processMotorQueue ⟨0, 100⟩ 0 [⟨1, 0, 5⟩, ⟨2, 0, 7⟩]).2
      = [⟨1, 0, 5⟩, ⟨2, 0, 7⟩].flatMap V1.requestBlock
    ∧ ∃ l1 l2 l3 : MotorTrace,
        (V1.processMotorQueue ⟨0, 100⟩ 0 [⟨1, 0, 5⟩, ⟨2, 0, 7⟩]).2
          = l1 ++ (⟨1, 0, 5⟩, PrimAction.publish "motor/control" "on")
              :: (l2 ++ (⟨2, 0, 7⟩, PrimAction.publish "motor/control" "on") :: l3)
        ∧ ((⟨1, 0, 5⟩ : MotorRequest), PrimAction.sleep (5 : Int)) ∈ l2
        ∧ ((⟨1, 0, 5⟩ : MotorRequest), PrimAction.publish "motor/control" "off") ∈ l2 :=
  ⟨(c5_fifo_on_hold_off_order ⟨0, 100⟩ 0 [⟨1, 0, 5⟩, ⟨2, 0, 7⟩]).1,
    (c5_fifo_on_hold_off_order ⟨0, 100⟩ 0 [⟨1, 0, 5⟩, ⟨2, 0, 7⟩]).2
      [] [] [] ⟨1, 0, 5⟩ ⟨2, 0, 7⟩ rfl⟩

/-- Claim C6: `AdminRestart` after `AdminForceShutdown` always lands in the
cleared normal state (flag false, reason/initiator/timestamp erased), and
admission afterwards behaves exactly as under any non-shutdown state with the
same quota state — so any admission that would have succeeded before the
shutdown succeeds again. -/
theorem c6_restart_after_force_shutdown_roundtrip
    (prior ss0 : V2.ShutdownState) (r b : String) (t : Int) (qs : QuotaState)
    (now : Int) (inp : Option Int) (queue : List MotorRequest)
    (h0 : ss0.isShutdown = false) :
    V2.AdminRestart (V2.AdminForceShutdown prior r b t) = V2.initialShutdownState
    ∧ V2.EnqueueMotorRequest (V2.AdminRestart (V2.AdminForceShutdown prior r b t))
        qs now inp queue
      = V2.EnqueueMotorRequest ss0 qs now inp queue := by
  constructor
  · rfl
  · simp [V2.EnqueueMotorRequest, V2.AdminRestart, V2.AdminForceShutdown,
      V2.initialShutdownState, h0]

/-- Claim C6, witness: after `forceShutdown("maintenance", "opA")` and a
restart, a concrete 10-second admission gives the same result as in the
pristine normal state. -/
theorem c6_restart_after_force_shutdown_roundtrip_witness :
    V2.AdminRestart (V2.AdminForceShutdown ⟨true, "x", "y", 3⟩ "maintenance" "opA" 9)
      = V2.initialShutdownState
    ∧ V2.EnqueueMotorRequest
        (V2.AdminRestart (V2.AdminForceShutdown ⟨true, "x", "y", 3⟩ "maintenance" "opA" 9))
        ⟨0, 100⟩ 0 (some 10) []
      = V2.EnqueueMotorRequest ⟨false, "", "", 0⟩ ⟨0, 100⟩ 0 (some 10) [] :=
  c6_restart_after_force_shutdown_roundtrip ⟨true, "x", "y", 3⟩ ⟨false, "", "", 0⟩
    "maintenance" "opA" 9 ⟨0, 100⟩ 0 (some 10) [] rfl

/-- Claim C7 evaluation: with the 100-slot queue already full, an admissible
101st request passes the shutdown, binding and quota checks and then blocks on
the channel send — the caller receives no queue-full rejection (no distinct
response is produced at all); with one slot free, the same request is queued.
The source comment calls the send non-blocking, but a send on a full buffered
channel blocks. -/
theorem c7_full_queue_send_blocks_caller :
    V2.EnqueueMotorRequest ⟨false, "", "", 0⟩ ⟨0, 100⟩ 0 (some 1)
        (List.replicate 100 ⟨0, 0, 0⟩)
      = (V2.Response.blockedOnQueueSend, ⟨0, 100⟩, List.replicate 100 ⟨0, 0, 0⟩)
    ∧ V2.EnqueueMotorRequest ⟨false, "", "", 0⟩ ⟨0, 100⟩ 0 (some 1)
        (List.replicate 99 ⟨0, 0, 0⟩)
      = (V2.Response.queued200, ⟨0, 100⟩,
          List.replicate 99 ⟨0, 0, 0⟩ ++ [⟨0, 0, 1000000000⟩]) := by
  constructor <;> rfl

/-- Claim C8, counterexample: a request with duration -1 is not rejected as
invalid input — Gin's required binding only fails on an absent or zero value —
and it passes the quota comparison (-1 s added never exceeds the limit), so it
is admitted and enqueued with a negative duration. -/
theorem c8_counterexample_negative_duration_admitted :
    (V2.EnqueueMotorRequest ⟨false, "", "", 0⟩ ⟨0, 100⟩ 0 (some (-1)) []).1
      = V2.Response.queued200
    ∧ (V2.EnqueueMotorRequest ⟨false, "", "", 0⟩ ⟨0, 100⟩ 0 (some (-1)) []).2.2
      = [⟨0, 0, -1000000000⟩] := by
  constructor <;> rfl

/-- Claim C8, amended: a request whose duration field is absent or zero is
rejected as invalid input (400) with the quota state and queue untouched —
even an expired window is not reset, since binding runs before the quota
section; a negative duration, however, passes validation. -/
theorem c8_absent_or_zero_rejected
    (ss : V2.ShutdownState) (qs : QuotaState) (now : Int) (inp : Option Int)
    (queue : List MotorRequest)
    (hs : ss.isShutdown = false) (h : inp = none ∨ inp = some 0) :
    V2.EnqueueMotorRequest ss qs now inp queue
      = (V2.Response.badRequest400, qs, queue) := by
  rcases h with h | h <;> subst h <;>
    simp [V2.EnqueueMotorRequest, bindRequiredInt, hs]

/-- Claim C8 (amended), witness: an absent duration is rejected with 400 and
the quota state ⟨7, 100⟩ stays untouched even though the window is expired at
now = 200. -/
theorem c8_absent_or_zero_rejected_witness :
    V2.EnqueueMotorRequest ⟨false, "", "", 0⟩ ⟨7, 100⟩ 200 none []
      = (V2.Response.badRequest400, ⟨7, 100⟩, []) :=
  c8_absent_or_zero_rejected ⟨false, "", "", 0⟩ ⟨7, 100⟩ 200 none [] rfl (Or.inl rfl)

/-- Claim C9: for an admitted request (valid duration, quota passed, user
present) the V1 handler writes the audit record exactly once and before the
enqueue — the event list is exactly audit-write then enqueued — and when the
audit write fails the caller receives 500 and nothing is enqueued (queue and
event list unchanged). -/
theorem c9_audit_once_before_enqueue
    (qs : QuotaState) (now d : Int) (uid : Nat) (queue : List MotorRequest)
    (hd : ¬ d = 0)
    (hq : ¬ (toInt64 ((quotaWindowStep qs now).totalMotorTime
        + toInt64 (d * nsPerMinute)) > motorQuota))
    (hcap : queue.length < 100) :
    V1.EnqueueMotorRequest qs now (some d) (some uid) true queue
      = (V1.Response.queued200, quotaWindowStep qs now,
          queue ++ [⟨0, now, toInt64 (d * nsPerMinute)⟩],
          [V1.Event.auditWrite uid now (toInt64 (d * nsPerMinute)),
           V1.Event.enqueued ⟨0, now, toInt64 (d * nsPerMinute)⟩])
    ∧ V1.EnqueueMotorRequest qs now (some d) (some uid) false queue
      = (V1.Response.auditFail500, quotaWindowStep qs now, queue, []) := by
  constructor <;> simp [V1.EnqueueMotorRequest, bindRequiredInt, hd, hq, hcap]

/-- Claim C9, witness: a 10-minute request by user 7 is audited once and then
enqueued; with a failing audit write the same request yields 500 and an
unchanged queue. -/
theorem c9_audit_once_before_enqueue_witness :
    V1.EnqueueMotorRequest ⟨0, 100⟩ 0 (some 10) (some 7) true []
      = (V1.Response.queued200, quotaWindowStep ⟨0, 100⟩ 0,
          [] ++ [⟨0, 0, 600000000000⟩],
          [V1.Event.auditWrite 7 0 600000000000,
           V1.Event.enqueued ⟨0, 0, 600000000000⟩])
    ∧ V1.EnqueueMotorRequest ⟨0, 100⟩ 0 (some 10) (some 7) false []
      = (V1.Response.auditFail500, quotaWindowStep ⟨0, 100⟩ 0, [], []) :=
  c9_audit_once_before_enqueue ⟨0, 100⟩ 0 10 7 [] (by decide) (by decide) (by decide)

/-- Claim C10: every admitted request is enqueued as a `MotorRequest` whose
`UserID` is 0, whatever authenticated user submitted it, while the audit
record written for the same request carries the real user id. -/
theorem c10_queued_request_userid_zero
    (qs : QuotaState) (now d : Int) (uid : Nat) (queue : List MotorRequest)
    (hd : ¬ d = 0)
    (hq : ¬ (toInt64 ((quotaWindowStep qs now).totalMotorTime
        + toInt64 (d * nsPerMinute)) > motorQuota))
    (hcap : queue.length < 100) :
    ∃ req : MotorRequest,
      (V1.EnqueueMotorRequest qs now (some d) (some uid) true queue).2.2.1
        = queue ++ [req]
      ∧ req.UserID = 0
      ∧ (V1.EnqueueMotorRequest qs now (some d) (some uid) true queue).2.2.2
        = [V1.Event.auditWrite uid now (toInt64 (d * nsPerMinute)),
           V1.Event.enqueued req] := by
  refine ⟨⟨0, now, toInt64 (d * nsPerMinute)⟩, ?_, rfl, ?_⟩ <;>
    simp [V1.EnqueueMotorRequest, bindRequiredInt, hd, hq, hcap]

/-- Claim C10, witness: user 7's admitted 10-minute request is enqueued with
`UserID` 0 while the audit event records user 7. -/
theorem c10_queued_request_userid_zero_witness :
    ∃ req : MotorRequest,
      (V1.EnqueueMotorRequest ⟨0, 100⟩ 0 (some 10) (some 7) true []).2.2.1
        = [] ++ [req]
      ∧ req.UserID = 0
      ∧ (V1.EnqueueMotorRequest ⟨0, 100⟩ 0 (some 10) (some 7) true []).2.2.2
        = [V1.Event.auditWrite 7 0 (toInt64 (10 * nsPerMinute)),
           V1.Event.enqueued req] :=
  c10_queued_request_userid_zero ⟨0, 100⟩ 0 10 7 [] (by decide) (by decide) (by decide)
